import Mathlib

set_option maxRecDepth 40000

/-! Shallow embedding of the M2 Code Guardian static analyzer
(scripts/automation/M2_code_guardian.py): severity and OWASP enumerations,
the SecurityFinding and CodeMetrics data model, the AST security analyzer,
the regex-based textual checks, the per-file metric computation, the
single-file scan and the directory aggregation, together with theorems
settling the specification claims about them. -/

namespace CodeGuardian

/-! Character and line utilities mirroring the Python string operations the
analyzer uses (str.split, str.strip, str.startswith, substring tests). -/

/-- Python str.split on a separator character: the empty string yields one
empty field, and a trailing separator yields a trailing empty field. -/
def splitOnChar (sep : Char) : List Char → List (List Char)
  | [] => [[]]
  | c :: cs =>
    if c = sep then [] :: splitOnChar sep cs
    else
      match splitOnChar sep cs with
      | [] => [[c]]
      | l :: ls => (c :: l) :: ls

/-- source.split with a newline, as in every line-oriented check. -/
def splitLinesChars (cs : List Char) : List (List Char) :=
  splitOnChar '\n' cs

/-- ASCII whitespace: the characters removed by Python str.strip and matched
by the regex whitespace class. -/
def pySpace (c : Char) : Bool :=
  c == ' ' || c == '\t' || c == '\n' || c == '\r' || c == '\x0b' || c == '\x0c'

/-- Python str.strip: drop leading and trailing whitespace. -/
def pyStrip (cs : List Char) : List Char :=
  ((cs.dropWhile pySpace).reverse.dropWhile pySpace).reverse

/-- Python str.startswith, over character lists (pattern first). -/
def startsWithChars : List Char → List Char → Bool
  | [], _ => true
  | _ :: _, [] => false
  | p :: ps, c :: cs => p == c && startsWithChars ps cs

/-- Python substring membership test (needle in haystack). -/
def strContainsChars (needle : List Char) : List Char → Bool
  | [] => startsWithChars needle []
  | c :: cs => startsWithChars needle (c :: cs) || strContainsChars needle cs

/-- Python substring membership test on strings. -/
def strContains (needle hay : String) : Bool :=
  strContainsChars needle.data hay.data

/-- Python str.endswith, over character lists (pattern first). -/
def endsWithChars (p cs : List Char) : Bool :=
  startsWithChars p.reverse cs.reverse

/-- Python str.lower (ASCII case folding). -/
def toLowerChars (cs : List Char) : List Char :=
  cs.map Char.toLower

/-- The join of a list of strings with a newline separator. -/
def joinWithNewline : List String → String
  | [] => ""
  | [s] => s
  | s :: rest => s ++ "\n" ++ joinWithNewline rest

/-- Index of the last occurrence of a character, if any. -/
def lastIndexOfChar (c : Char) (cs : List Char) : Option Nat :=
  ((cs.enum.filter (fun p => p.2 == c)).getLast?).map (fun p => p.1)

/-- pathlib Path.suffix: the extension of the final path component including
the dot; empty when the name has no dot, when its only dot is leading, or
when the dot is the final character. -/
def pathSuffix (path : String) : String :=
  let name := (splitOnChar '/' path.data).getLastD []
  match lastIndexOfChar '.' name with
  | some i => if 0 < i ∧ i < name.length - 1 then String.mk (name.drop i) else ""
  | none => ""

/-! A small regular-expression engine (Brzozowski derivatives) used to embed
the re.search patterns of the textual checks. A character class is a boolean
predicate; rsearch decides whether some substring of the line matches, which
is exactly the truthiness of re.search. -/

/-- Regular expressions over characters. -/
inductive Rx where
  | emp : Rx
  | eps : Rx
  | cls (p : Char → Bool) : Rx
  | cat (a b : Rx) : Rx
  | alt (a b : Rx) : Rx
  | star (a : Rx) : Rx

/-- Concatenation with unit and annihilator simplification. -/
def mkCat : Rx → Rx → Rx
  | .emp, _ => .emp
  | .eps, b => b
  | _, .emp => .emp
  | a, .eps => a
  | a, b => .cat a b

/-- Alternation with annihilator simplification. -/
def mkAlt : Rx → Rx → Rx
  | .emp, b => b
  | a, .emp => a
  | a, b => .alt a b

/-- Whether the regex accepts the empty word. -/
def nullable : Rx → Bool
  | .emp => false
  | .eps => true
  | .cls _ => false
  | .cat a b => nullable a && nullable b
  | .alt a b => nullable a || nullable b
  | .star _ => true

/-- Brzozowski derivative with respect to one character. -/
def deriv : Rx → Char → Rx
  | .emp, _ => .emp
  | .eps, _ => .emp
  | .cls p, c => if p c then .eps else .emp
  | .cat a b, c =>
    if nullable a then mkAlt (mkCat (deriv a c) b) (deriv b c)
    else mkCat (deriv a c) b
  | .alt a b, c => mkAlt (deriv a c) (deriv b c)
  | .star a, c => mkCat (deriv a c) (.star a)

/-- Whole-word match of a regex against a character list. -/
def rmatch (r : Rx) (cs : List Char) : Bool :=
  nullable (cs.foldl deriv r)

/-- The class matching any character (the regex dot, and the gap around a
searched pattern). -/
def anyCh : Rx := .cls (fun _ => true)

/-- Truthiness of re.search: some substring of the line matches the regex. -/
def rsearch (r : Rx) (cs : List Char) : Bool :=
  rmatch (mkCat (.star anyCh) (mkCat r (.star anyCh))) cs

/-- Concatenation of a list of regexes. -/
def rcat (rs : List Rx) : Rx := rs.foldr mkCat .eps

/-- Literal string regex. -/
def rlit (s : String) : Rx :=
  rcat (s.data.map (fun c => .cls (fun d => d == c)))

/-- Optional regex (question mark). -/
def ropt (r : Rx) : Rx := .alt r .eps

/-- One-or-more repetition (plus). -/
def rplus (r : Rx) : Rx := .cat r (.star r)

/-- Zero-or-more whitespace, the backslash-s star of the patterns. -/
def rws : Rx := .star (.cls pySpace)

/-- The double-quote character. -/
def qD : Char := Char.ofNat 34

/-- The single-quote character. -/
def qS : Char := Char.ofNat 39

/-- The character class of the two quote characters. -/
def quoteCls : Rx := .cls (fun c => c == qD || c == qS)

/-- One or more characters that are not quotes (the negated quote class,
repeated). -/
def notQuotePlus : Rx := rplus (.cls (fun c => !(c == qD || c == qS)))

/-- An optional underscore-or-dash separator class of the secret patterns. -/
def udash : Rx := ropt (.cls (fun c => c == '_' || c == '-'))

/-! Data model: VulnerabilityLevel, OWASPCategory, SecurityFinding and
CodeMetrics, with float fields embedded as rationals. -/

/-- OWASP-aligned vulnerability severity levels. -/
inductive VulnerabilityLevel where
  | critical
  | high
  | medium
  | low
  | info
deriving DecidableEq, BEq, Repr

/-- OWASP Top 10 2021 categories. -/
inductive OWASPCategory where
  | a01BrokenAccessControl
  | a02CryptographicFailures
  | a03Injection
  | a04InsecureDesign
  | a05SecurityMisconfiguration
  | a06VulnerableComponents
  | a07AuthFailures
  | a08DataIntegrityFailures
  | a09LoggingFailures
  | a10Ssrf
deriving DecidableEq, BEq, Repr

/-- One security vulnerability or code quality issue (the SecurityFinding
dataclass). -/
structure SecurityFinding where
  file_path : String
  line_number : Nat
  column : Nat
  vulnerability_type : String
  owasp_category : OWASPCategory
  severity : VulnerabilityLevel
  description : String
  recommendation : String
  code_snippet : String := ""
  cwe_id : Option String := none
  confidence : ℚ := 1
deriving DecidableEq, Repr

/-- Code quality and complexity metrics (the CodeMetrics dataclass); the
dependencies set is represented as a duplicate-free list in insertion
order. -/
structure CodeMetrics where
  total_lines : Nat := 0
  code_lines : Nat := 0
  comment_lines : Nat := 0
  blank_lines : Nat := 0
  cyclomatic_complexity : Nat := 0
  cognitive_complexity : Nat := 0
  maintainability_index : ℚ := 0
  technical_debt_hours : ℚ := 0
  test_coverage : ℚ := 0
  dependencies : List String := []
deriving DecidableEq, Repr

/-- CodeMetrics.calculate_health_score: a weighted sum of maintainability
(included only when positive), complexity, test coverage and technical debt
scores; the scores list is always nonempty, so the empty-list fallback of
the source never triggers. -/
def CodeMetrics.calculateHealthScore (m : CodeMetrics) : ℚ :=
  let scores : List ℚ :=
    (if m.maintainability_index > 0 then [min m.maintainability_index 100 * (3/10)] else [])
    ++ [max 0 (100 - 2 * (m.cyclomatic_complexity : ℚ)) * (3/10)]
    ++ [m.test_coverage * (1/4)]
    ++ [max 0 (100 - 5 * m.technical_debt_hours) * (3/20)]
  scores.sum

/-! The Python abstract syntax tree fragment the analyzer inspects. Node
kinds that carry no behavior in the analyzer (numeric constants, lambdas,
comparisons and so on) collapse into constOther / otherOp; positions
(lineno, col_offset) are stored on exactly the nodes whose positions the
analyzer reads. The list types are specialized inside the mutual block so
that every traversal below is plain structural recursion. -/

/-- Binary operators distinguished by the analyzer: Add (concatenation
tracking), Mod (percent formatting in the SQL check), anything else. -/
inductive PyOp where
  | add
  | mod
  | otherOp
deriving DecidableEq, Repr

mutual

/-- Python expressions (ast.expr). -/
inductive PyExpr where
  | name (id : String) : PyExpr
  | attr (value : PyExpr) (a : String) : PyExpr
  | strLit (s : String) : PyExpr
  | constBool (b : Bool) : PyExpr
  | constOther : PyExpr
  | joinedStr (lineno : Nat) (values : PyFVals) : PyExpr
  | binOp (lineno : Nat) (op : PyOp) (left right : PyExpr) : PyExpr
  | boolOp (values : PyExprs) : PyExpr
  | call (lineno col : Nat) (func : PyExpr) (args : PyExprs) (keywords : PyKeywords) : PyExpr
deriving DecidableEq, Repr

/-- Lists of expressions. -/
inductive PyExprs where
  | nil : PyExprs
  | cons (e : PyExpr) (rest : PyExprs) : PyExprs
deriving DecidableEq, Repr

/-- One piece of an f-string: a literal fragment or a formatted value. -/
inductive PyFVal where
  | lit (s : String) : PyFVal
  | formatted (value : PyExpr) : PyFVal
deriving DecidableEq, Repr

/-- Lists of f-string pieces. -/
inductive PyFVals where
  | nil : PyFVals
  | cons (v : PyFVal) (rest : PyFVals) : PyFVals
deriving DecidableEq, Repr

/-- A keyword argument: optional keyword name and value. -/
inductive PyKeyword where
  | mk (arg : Option String) (value : PyExpr) : PyKeyword
deriving DecidableEq, Repr

/-- Lists of keyword arguments. -/
inductive PyKeywords where
  | nil : PyKeywords
  | cons (k : PyKeyword) (rest : PyKeywords) : PyKeywords
deriving DecidableEq, Repr

end

mutual

/-- Python statements (ast.stmt), restricted to the kinds the analyzer and
the complexity walk distinguish. -/
inductive PyStmt where
  | assign (targets : PyExprs) (value : PyExpr) : PyStmt
  | exprStmt (e : PyExpr) : PyStmt
  | importStmt (lineno : Nat) (names : List String) : PyStmt
  | importFrom (lineno : Nat) (module : Option String) : PyStmt
  | funcDef (name : String) (body : PyStmts) : PyStmt
  | ifStmt (test : PyExpr) (body orelse : PyStmts) : PyStmt
  | whileStmt (test : PyExpr) (body : PyStmts) : PyStmt
  | forStmt (target iter : PyExpr) (body : PyStmts) : PyStmt
  | tryStmt (body : PyStmts) (handlers : PyHandlers) : PyStmt
  | returnStmt (value : Option PyExpr) : PyStmt
deriving DecidableEq, Repr

/-- Lists of statements (a module body, a suite). -/
inductive PyStmts where
  | nil : PyStmts
  | cons (s : PyStmt) (rest : PyStmts) : PyStmts
deriving DecidableEq, Repr

/-- Exception handlers of a try statement (each one ast.ExceptHandler with
its suite). -/
inductive PyHandlers where
  | nil : PyHandlers
  | cons (body : PyStmts) (rest : PyHandlers) : PyHandlers
deriving DecidableEq, Repr

end

/-! ASTSecurityAnalyzer: the visitor state, the pattern catalog of the
checks, and the depth-first traversal. The NodeVisitor dispatch defines
visitor methods for Import, ImportFrom, Call, BinOp and JoinedStr; every
other node kind falls through to generic child traversal. -/

/-- The mutable state of one ASTSecurityAnalyzer run. -/
structure AState where
  findings : List SecurityFinding := []
  imports : List String := []
  function_calls : List (String × List Nat) := []
  string_operations : List (Nat × String) := []
deriving DecidableEq, Repr

/-- The immutable analyzer context: the file path and the source split into
lines for snippets. -/
structure ACtx where
  file_path : String
  source_lines : List (List Char)

/-- Append one finding. -/
def addFinding (st : AState) (f : SecurityFinding) : AState :=
  { st with findings := st.findings ++ [f] }

/-- Add a module to the imports set (Python set add: membership only). -/
def addImport (st : AState) (m : String) : AState :=
  if st.imports.contains m then st else { st with imports := st.imports ++ [m] }

/-- Record one call of a function name at a line in the function usage
dictionary. -/
def recordCall (fc : List (String × List Nat)) (nm : String) (line : Nat) :
    List (String × List Nat) :=
  if fc.any (fun p => p.1 == nm) then
    fc.map (fun p => if p.1 == nm then (p.1, p.2 ++ [line]) else p)
  else fc ++ [(nm, [line])]

/-- ASTSecurityAnalyzer._get_code_snippet with its default context of two
lines: a window around the finding, the finding line marked with a chevron
prefix. -/
def getCodeSnippet (sourceLines : List (List Char)) (lineNo : Nat) : String :=
  let start := lineNo - 3
  let stop := min sourceLines.length (lineNo + 2)
  let pieces := (List.range (stop - start)).map (fun k =>
    let i := start + k
    let pre := if i == lineNo - 1 then ">>> " else "    "
    pre ++ String.mk (sourceLines.getD i []))
  joinWithNewline pieces

/-- ASTSecurityAnalyzer._get_function_name: a simple name or the attribute
part of an attribute access. -/
def getFunctionName : PyExpr → Option String
  | .name id => some id
  | .attr _ a => some a
  | _ => none

/-- ASTSecurityAnalyzer._is_string_node: a string constant or an f-string. -/
def isStringNode : PyExpr → Bool
  | .strLit _ => true
  | .joinedStr _ _ => true
  | _ => false

/-- The vulnerable-import table (module, severity, CWE, description). -/
def vulnerablePackages : List (String × VulnerabilityLevel × String × String) :=
  [("pickle", .high, "CWE-502", "Pickle can execute arbitrary code during deserialization"),
   ("yaml", .medium, "CWE-502", "Use yaml.safe_load() instead of yaml.load()"),
   ("xml.etree.ElementTree", .medium, "CWE-611", "Vulnerable to XXE attacks, use defusedxml"),
   ("telnetlib", .low, "CWE-319", "Telnet transmits data in plaintext")]

/-- ASTSecurityAnalyzer._check_vulnerable_import. -/
def checkVulnerableImport (ctx : ACtx) (st : AState) (module : String) (lineNo : Nat) : AState :=
  match vulnerablePackages.find? (fun e => e.1 == module) with
  | none => st
  | some (_, sev, cwe, desc) => addFinding st
      { file_path := ctx.file_path
        line_number := lineNo
        column := 0
        vulnerability_type := "Vulnerable Import"
        owasp_category := .a06VulnerableComponents
        severity := sev
        description := "Import of potentially vulnerable module: " ++ module ++ ". " ++ desc
        recommendation := "Consider using a more secure alternative or ensure proper usage"
        code_snippet := getCodeSnippet ctx.source_lines lineNo
        cwe_id := some cwe
        confidence := 9/10 }

/-- The dangerous-function table (name, severity, OWASP, CWE). -/
def dangerousFunctions : List (String × VulnerabilityLevel × OWASPCategory × String) :=
  [("eval", .critical, .a03Injection, "CWE-95"),
   ("exec", .critical, .a03Injection, "CWE-95"),
   ("compile", .high, .a03Injection, "CWE-94"),
   ("__import__", .high, .a03Injection, "CWE-470"),
   ("input", .low, .a03Injection, "CWE-20")]

/-- ASTSecurityAnalyzer._check_dangerous_function. -/
def checkDangerousFunction (ctx : ACtx) (st : AState) (funcName : String) (lineNo col : Nat) : AState :=
  match dangerousFunctions.find? (fun e => e.1 == funcName) with
  | none => st
  | some (_, sev, owasp, cwe) => addFinding st
      { file_path := ctx.file_path
        line_number := lineNo
        column := col
        vulnerability_type := "Dangerous Function"
        owasp_category := owasp
        severity := sev
        description := "Use of dangerous function " ++ String.mk [qS] ++ funcName
          ++ String.mk [qS] ++ " that can execute arbitrary code"
        recommendation := "Avoid using " ++ funcName ++ ". Find a safer alternative"
        code_snippet := getCodeSnippet ctx.source_lines lineNo
        cwe_id := some cwe
        confidence := 1 }

/-- ASTSecurityAnalyzer._check_sql_injection: fires only when the first
argument of the query-execution call is a percent-formatting binary
operation or an f-string literal. -/
def checkSqlInjection (ctx : ACtx) (st : AState) (lineNo col : Nat) : PyExprs → AState
  | .nil => st
  | .cons firstArg _ =>
    match firstArg with
    | .binOp _ .mod _ _ => addFinding st
        { file_path := ctx.file_path
          line_number := lineNo
          column := col
          vulnerability_type := "SQL Injection"
          owasp_category := .a03Injection
          severity := .critical
          description := "SQL query uses string formatting which is vulnerable to injection"
          recommendation := "Use parameterized queries with placeholders (?, %s, $1)"
          code_snippet := getCodeSnippet ctx.source_lines lineNo
          cwe_id := some "CWE-89"
          confidence := 19/20 }
    | .joinedStr _ _ => addFinding st
        { file_path := ctx.file_path
          line_number := lineNo
          column := col
          vulnerability_type := "SQL Injection"
          owasp_category := .a03Injection
          severity := .critical
          description := "SQL query uses f-string formatting which is vulnerable to injection"
          recommendation := "Never use f-strings for SQL. Use parameterized queries"
          code_snippet := getCodeSnippet ctx.source_lines lineNo
          cwe_id := some "CWE-89"
          confidence := 1 }
    | _ => st

/-- ASTSecurityAnalyzer._check_command_injection: one finding per keyword
argument shell=True (a literal boolean constant). -/
def checkCommandInjection (ctx : ACtx) (st : AState) (lineNo col : Nat) : PyKeywords → AState
  | .nil => st
  | .cons (.mk arg value) rest =>
    let st :=
      match arg, value with
      | some a, .constBool true =>
        if a == "shell" then addFinding st
          { file_path := ctx.file_path
            line_number := lineNo
            column := col
            vulnerability_type := "Command Injection"
            owasp_category := .a03Injection
            severity := .high
            description := "Using shell=True in subprocess is vulnerable to command injection"
            recommendation := "Use shell=False and pass arguments as a list"
            code_snippet := getCodeSnippet ctx.source_lines lineNo
            cwe_id := some "CWE-78"
            confidence := 9/10 }
        else st
      | _, _ => st
    checkCommandInjection ctx st lineNo col rest

/-- ASTSecurityAnalyzer._check_path_traversal: flags a bare variable
reference as the first argument of a file operation. -/
def checkPathTraversal (ctx : ACtx) (st : AState) (lineNo col : Nat) : PyExprs → AState
  | .cons (.name _) _ => addFinding st
      { file_path := ctx.file_path
        line_number := lineNo
        column := col
        vulnerability_type := "Path Traversal"
        owasp_category := .a01BrokenAccessControl
        severity := .medium
        description := "File operation with potentially user-controlled path"
        recommendation := "Validate and sanitize file paths. Use os.path.join() and check against allowed directories"
        code_snippet := getCodeSnippet ctx.source_lines lineNo
        cwe_id := some "CWE-22"
        confidence := 7/10 }
  | _ => st

/-- ASTSecurityAnalyzer._check_ssrf: flags a variable reference or an
f-string as the first argument of an HTTP request. -/
def checkSsrf (ctx : ACtx) (st : AState) (lineNo col : Nat) : PyExprs → AState
  | .cons (.name _) _ => addFinding st
      { file_path := ctx.file_path
        line_number := lineNo
        column := col
        vulnerability_type := "SSRF"
        owasp_category := .a10Ssrf
        severity := .medium
        description := "HTTP request with potentially user-controlled URL"
        recommendation := "Validate URLs against an allowlist. Prevent requests to internal networks"
        code_snippet := getCodeSnippet ctx.source_lines lineNo
        cwe_id := some "CWE-918"
        confidence := 6/10 }
  | .cons (.joinedStr _ _) _ => addFinding st
      { file_path := ctx.file_path
        line_number := lineNo
        column := col
        vulnerability_type := "SSRF"
        owasp_category := .a10Ssrf
        severity := .medium
        description := "HTTP request with potentially user-controlled URL"
        recommendation := "Validate URLs against an allowlist. Prevent requests to internal networks"
        code_snippet := getCodeSnippet ctx.source_lines lineNo
        cwe_id := some "CWE-918"
        confidence := 6/10 }
  | _ => st

/-- ASTSecurityAnalyzer._check_format_string_injection: a templated slot
holding a bare variable reference. -/
def checkFormatStringInjection (ctx : ACtx) (st : AState) (lineNo : Nat) : PyExpr → AState
  | .name _ => addFinding st
      { file_path := ctx.file_path
        line_number := lineNo
        column := 0
        vulnerability_type := "Format String Injection"
        owasp_category := .a03Injection
        severity := .low
        description := "F-string with potentially user-controlled value"
        recommendation := "Ensure user input is properly validated before formatting"
        code_snippet := getCodeSnippet ctx.source_lines lineNo
        cwe_id := some "CWE-134"
        confidence := 1/2 }
  | _ => st

/-- The loop of visit_JoinedStr over the f-string pieces, checking each
formatted value. -/
def fstringCheckVals (ctx : ACtx) (lineNo : Nat) : AState → PyFVals → AState
  | st, .nil => st
  | st, .cons (.lit _) rest => fstringCheckVals ctx lineNo st rest
  | st, .cons (.formatted v) rest =>
    fstringCheckVals ctx lineNo (checkFormatStringInjection ctx st lineNo v) rest

mutual

/-- NodeVisitor.visit on an expression: run the visitor method for the node
kind when one exists, then traverse the children (generic_visit). -/
def visitExpr (ctx : ACtx) (st : AState) : PyExpr → AState
  | .name _ => st
  | .attr v _ => visitExpr ctx st v
  | .strLit _ => st
  | .constBool _ => st
  | .constOther => st
  | .joinedStr ln vals =>
    let st := { st with string_operations := st.string_operations ++ [(ln, "f-string")] }
    let st := fstringCheckVals ctx ln st vals
    visitFVals ctx st vals
  | .binOp ln op l r =>
    let st :=
      if op == PyOp.add && (isStringNode l || isStringNode r) then
        { st with string_operations := st.string_operations ++ [(ln, "concatenation")] }
      else st
    visitExpr ctx (visitExpr ctx st l) r
  | .boolOp vals => visitExprs ctx st vals
  | .call ln col f args kws =>
    let st :=
      match getFunctionName f with
      | none => st
      | some nm =>
        let st := { st with function_calls := recordCall st.function_calls nm ln }
        let st := checkDangerousFunction ctx st nm ln col
        let st :=
          if ["execute", "executemany", "raw", "query"].contains nm then
            checkSqlInjection ctx st ln col args
          else st
        let st :=
          if ["system", "popen", "call", "run", "exec", "eval"].contains nm then
            checkCommandInjection ctx st ln col kws
          else st
        let st :=
          if ["open", "read", "write", "readfile", "writefile"].contains nm then
            checkPathTraversal ctx st ln col args
          else st
        let st :=
          if ["get", "post", "put", "delete", "request", "urlopen"].contains nm then
            checkSsrf ctx st ln col args
          else st
        st
    visitKeywords ctx (visitExprs ctx (visitExpr ctx st f) args) kws

/-- Traverse a list of expressions in order. -/
def visitExprs (ctx : ACtx) (st : AState) : PyExprs → AState
  | .nil => st
  | .cons e rest => visitExprs ctx (visitExpr ctx st e) rest

/-- Traverse the children of an f-string. -/
def visitFVals (ctx : ACtx) (st : AState) : PyFVals → AState
  | .nil => st
  | .cons (.lit _) rest => visitFVals ctx st rest
  | .cons (.formatted v) rest => visitFVals ctx (visitExpr ctx st v) rest

/-- Traverse the values of keyword arguments. -/
def visitKeywords (ctx : ACtx) (st : AState) : PyKeywords → AState
  | .nil => st
  | .cons (.mk _ v) rest => visitKeywords ctx (visitExpr ctx st v) rest

end

mutual

/-- NodeVisitor.visit on a statement: visit_Import and visit_ImportFrom are
the only statement visitor methods; everything else traverses children. -/
def visitStmt (ctx : ACtx) (st : AState) : PyStmt → AState
  | .assign targets value => visitExpr ctx (visitExprs ctx st targets) value
  | .exprStmt e => visitExpr ctx st e
  | .importStmt ln names =>
    names.foldl (fun st nm => checkVulnerableImport ctx (addImport st nm) nm ln) st
  | .importFrom ln module =>
    match module with
    | some m => checkVulnerableImport ctx (addImport st m) m ln
    | none => st
  | .funcDef _ body => visitStmts ctx st body
  | .ifStmt t b o => visitStmts ctx (visitStmts ctx (visitExpr ctx st t) b) o
  | .whileStmt t b => visitStmts ctx (visitExpr ctx st t) b
  | .forStmt tg it b => visitStmts ctx (visitExpr ctx (visitExpr ctx st tg) it) b
  | .tryStmt b hs => visitHandlers ctx (visitStmts ctx st b) hs
  | .returnStmt v =>
    match v with
    | some e => visitExpr ctx st e
    | none => st

/-- Traverse a suite of statements in order. -/
def visitStmts (ctx : ACtx) (st : AState) : PyStmts → AState
  | .nil => st
  | .cons s rest => visitStmts ctx (visitStmt ctx st s) rest

/-- Traverse exception-handler suites in order. -/
def visitHandlers (ctx : ACtx) (st : AState) : PyHandlers → AState
  | .nil => st
  | .cons b rest => visitHandlers ctx (visitStmts ctx st b) rest

end

/-- One full ASTSecurityAnalyzer run over a module body. -/
def runAnalyzer (filePath : String) (source : String) (tree : PyStmts) : AState :=
  visitStmts { file_path := filePath, source_lines := splitLinesChars source.data } {} tree

/-! Cyclomatic complexity: the ast.walk pass of _calculate_python_metrics
counts one for every If, While, For and ExceptHandler node and the number
of operands beyond the first for every BoolOp node. -/

/-- Length of a specialized expression list. -/
def lenExprs : PyExprs → Nat
  | .nil => 0
  | .cons _ rest => 1 + lenExprs rest

mutual

/-- Decision points inside one expression. -/
def ccExpr : PyExpr → Nat
  | .name _ => 0
  | .attr v _ => ccExpr v
  | .strLit _ => 0
  | .constBool _ => 0
  | .constOther => 0
  | .joinedStr _ vals => ccFVals vals
  | .binOp _ _ l r => ccExpr l + ccExpr r
  | .boolOp vals => (lenExprs vals - 1) + ccExprs vals
  | .call _ _ f args kws => ccExpr f + ccExprs args + ccKeywords kws

/-- Decision points inside a list of expressions. -/
def ccExprs : PyExprs → Nat
  | .nil => 0
  | .cons e rest => ccExpr e + ccExprs rest

/-- Decision points inside the pieces of an f-string. -/
def ccFVals : PyFVals → Nat
  | .nil => 0
  | .cons (.lit _) rest => ccFVals rest
  | .cons (.formatted v) rest => ccExpr v + ccFVals rest

/-- Decision points inside keyword arguments. -/
def ccKeywords : PyKeywords → Nat
  | .nil => 0
  | .cons (.mk _ v) rest => ccExpr v + ccKeywords rest

end

mutual

/-- Decision points of one statement and its subtree. -/
def ccStmt : PyStmt → Nat
  | .assign ts v => ccExprs ts + ccExpr v
  | .exprStmt e => ccExpr e
  | .importStmt _ _ => 0
  | .importFrom _ _ => 0
  | .funcDef _ body => ccStmts body
  | .ifStmt t b o => 1 + ccExpr t + ccStmts b + ccStmts o
  | .whileStmt t b => 1 + ccExpr t + ccStmts b
  | .forStmt tg it b => 1 + ccExpr tg + ccExpr it + ccStmts b
  | .tryStmt b hs => ccStmts b + ccHandlers hs
  | .returnStmt (some e) => ccExpr e
  | .returnStmt none => 0

/-- Decision points of a suite. -/
def ccStmts : PyStmts → Nat
  | .nil => 0
  | .cons s rest => ccStmt s + ccStmts rest

/-- Decision points of exception handlers: one per handler node plus its
suite. -/
def ccHandlers : PyHandlers → Nat
  | .nil => 0
  | .cons b rest => 1 + ccStmts b + ccHandlers rest

end

/-! Per-file Python metrics (_calculate_python_metrics): line counts from
the raw text, complexity from the tree, and the simplified maintainability
index. -/

/-- The line-classification loop: every line is exactly one of code,
comment or blank, decided on the stripped line. Result order:
(code, comment, blank). -/
def countLineTypes : List (List Char) → Nat × Nat × Nat
  | [] => (0, 0, 0)
  | l :: ls =>
    let r := countLineTypes ls
    let s := pyStrip l
    if s.isEmpty then (r.1, r.2.1, r.2.2 + 1)
    else if startsWithChars ['#'] s then (r.1, r.2.1 + 1, r.2.2)
    else (r.1 + 1, r.2.1, r.2.2)

/-- CodeGuardian._calculate_python_metrics. The source computes the
maintainability index as max(0, 171 - 5.2 * (complexity / max(1, code)) * 10)
in floating point; the embedding computes the same expression exactly over
the rationals with 5.2 written as 26/5. When no code line exists the
assignment is skipped and the index keeps its default of zero. -/
def calcPythonMetrics (tree : PyStmts) (source : String) : CodeMetrics :=
  let lines := splitLinesChars source.data
  let counts := countLineTypes lines
  let cc := ccStmts tree
  { total_lines := lines.length
    code_lines := counts.1
    comment_lines := counts.2.1
    blank_lines := counts.2.2
    cyclomatic_complexity := cc
    maintainability_index :=
      if counts.1 > 0 then
        max 0 (171 - (26/5 : ℚ) * ((cc : ℚ) / ((max 1 counts.1 : Nat) : ℚ)) * 10)
      else 0 }

/-! Textual checks (_check_hardcoded_secrets, _check_weak_crypto,
_check_logging_issues) and the JavaScript path. The secret and log regexes
run under re.IGNORECASE; since every letter in those patterns is lower
case and their character classes are case-free, matching the lower-cased
line against the lower-case pattern is equivalent. -/

/-- The colon-or-equals class of the secret patterns. -/
def colonEq : Rx := .cls (fun c => c == ':' || c == '=')

/-- Regex: optional quote, api, optional underscore or dash, key, optional
quote, whitespace, colon or equals, whitespace, quoted nonempty value. -/
def apiKeyRx : Rx :=
  rcat [ropt quoteCls, rlit "api", udash, rlit "key", ropt quoteCls, rws,
        colonEq, rws, quoteCls, notQuotePlus, quoteCls]

/-- Regex for a secret-key assignment, same shape as the api-key pattern. -/
def secretKeyRx : Rx :=
  rcat [ropt quoteCls, rlit "secret", udash, rlit "key", ropt quoteCls, rws,
        colonEq, rws, quoteCls, notQuotePlus, quoteCls]

/-- Regex for a password assignment. -/
def passwordRx : Rx :=
  rcat [ropt quoteCls, rlit "password", ropt quoteCls, rws,
        colonEq, rws, quoteCls, notQuotePlus, quoteCls]

/-- Regex for a token assignment. -/
def tokenRx : Rx :=
  rcat [ropt quoteCls, rlit "token", ropt quoteCls, rws,
        colonEq, rws, quoteCls, notQuotePlus, quoteCls]

/-- Regex for an aws-access-key assignment. -/
def awsKeyRx : Rx :=
  rcat [ropt quoteCls, rlit "aws", udash, rlit "access", udash, rlit "key",
        ropt quoteCls, rws, colonEq, rws, quoteCls, notQuotePlus, quoteCls]

/-- The secret pattern table with its secret-type labels, in source order. -/
def secretPatterns : List (Rx × String) :=
  [(apiKeyRx, "API Key"), (secretKeyRx, "Secret Key"),
   (passwordRx, "Hardcoded Password"), (tokenRx, "Access Token"),
   (awsKeyRx, "AWS Credentials")]

/-- CodeGuardian._check_hardcoded_secrets: per line, per pattern in order,
one finding per matching pattern; the snippet is the stripped line cut to
fifty characters. -/
def checkHardcodedSecrets (source : String) (filePath : String) : List SecurityFinding :=
  let lines := splitLinesChars source.data
  ((lines.enum).map (fun p =>
    secretPatterns.filterMap (fun q =>
      if rsearch q.1 (toLowerChars p.2) then
        some { file_path := filePath
               line_number := p.1 + 1
               column := 0
               vulnerability_type := "Hardcoded Secret"
               owasp_category := .a02CryptographicFailures
               severity := .high
               description := "Potential hardcoded " ++ q.2 ++ " detected"
               recommendation := "Use environment variables or secure key management"
               code_snippet := String.mk ((pyStrip p.2).take 50) ++ "..."
               cwe_id := some "CWE-798"
               confidence := 4/5 }
      else none))).flatten

/-- The weak-crypto algorithm table. -/
def weakCryptoAlgos : List (String × String) :=
  [("MD5", "CWE-327"), ("SHA1", "CWE-327"), ("DES", "CWE-327"), ("RC4", "CWE-327")]

/-- The first numbered line containing a needle, if any. -/
def firstLineContaining (needle : List Char) : List (Nat × List Char) → Option (Nat × List Char)
  | [] => none
  | p :: rest =>
    if strContainsChars needle p.2 then some p else firstLineContaining needle rest

/-- CodeGuardian._check_weak_crypto: for each algorithm name, a
case-sensitive substring test over the whole source, then one finding at
the first line containing the name (the loop breaks after that line). -/
def checkWeakCrypto (source : String) (filePath : String) : List SecurityFinding :=
  let numbered := (splitLinesChars source.data).enum.map (fun p => (p.1 + 1, p.2))
  weakCryptoAlgos.filterMap (fun q =>
    if strContains q.1 source then
      match firstLineContaining q.1.data numbered with
      | some pr => some { file_path := filePath
                          line_number := pr.1
                          column := 0
                          vulnerability_type := "Weak Cryptography"
                          owasp_category := .a02CryptographicFailures
                          severity := .medium
                          description := "Use of weak cryptographic algorithm: " ++ q.1
                          recommendation := "Use stronger algorithms (SHA-256, AES, etc.)"
                          code_snippet := String.mk (pyStrip pr.2)
                          cwe_id := some q.2
                          confidence := 9/10 }
      | none => none
    else none)

/-- The sensitive-data-in-log patterns, in source order. -/
def logPatterns : List Rx :=
  [rcat [rlit "log", .star anyCh, rlit "password"],
   rcat [rlit "print", .star anyCh, rlit "password"],
   rcat [rlit "console.log", .star anyCh, rlit "password"],
   rcat [rlit "logger", .star anyCh, rlit "credit", udash, rlit "card"],
   rcat [rlit "log", .star anyCh, rlit "ssn"]]

/-- CodeGuardian._check_logging_issues: per line, the pattern loop breaks
at the first match and every field of the emitted finding is independent of
which pattern matched, so a line contributes one finding exactly when some
pattern matches it. -/
def checkLoggingIssues (source : String) (filePath : String) : List SecurityFinding :=
  (splitLinesChars source.data).enum.filterMap (fun p =>
    if logPatterns.any (fun r => rsearch r (toLowerChars p.2)) then
      some { file_path := filePath
             line_number := p.1 + 1
             column := 0
             vulnerability_type := "Sensitive Data in Logs"
             owasp_category := .a09LoggingFailures
             severity := .medium
             description := "Potential sensitive data exposure in logs"
             recommendation := "Never log passwords, tokens, or PII"
             code_snippet := String.mk (pyStrip p.2)
             cwe_id := some "CWE-532"
             confidence := 7/10 }
    else none)

/-! The per-file analysis paths and the scan operations. -/

/-- CodeGuardian._analyze_python. The host parser is external to the core:
its outcome arrives as an optional tree, none modelling a parse failure, in
which case the except branch logs the error and the initial empty findings
and default metrics are returned; the three textual checks run inside the
same try block and are therefore skipped on a parse failure. -/
def analyzePython (filePath : String) (parsed : Option PyStmts) (source : String) :
    List SecurityFinding × CodeMetrics :=
  match parsed with
  | none => ([], {})
  | some tree =>
    let st := runAnalyzer filePath source tree
    let metrics0 := calcPythonMetrics tree source
    let metrics := { metrics0 with dependencies := st.imports }
    (st.findings ++ checkHardcodedSecrets source filePath
       ++ checkWeakCrypto source filePath
       ++ checkLoggingIssues source filePath,
     metrics)

/-- The JavaScript regex table (pattern, type, severity, category). -/
def jsPatterns : List (Rx × String × VulnerabilityLevel × OWASPCategory) :=
  [(rcat [rlit "eval", rws, rlit "("], "Eval Usage", .high, .a03Injection),
   (rcat [rlit "innerHTML", rws, rlit "="], "innerHTML Usage", .medium, .a03Injection),
   (rcat [rlit "document.write", rws, rlit "("], "document.write Usage", .low, .a03Injection),
   (.alt (rlit "localStorage.") (rlit "sessionStorage."), "Client Storage", .low,
    .a02CryptographicFailures)]

/-- CodeGuardian._analyze_javascript: case-sensitive per-line regex checks,
and basic metrics that fill only the total and code line counts. -/
def analyzeJavascript (filePath : String) (source : String) :
    List SecurityFinding × CodeMetrics :=
  let lines := splitLinesChars source.data
  let findings := ((lines.enum).map (fun p =>
    jsPatterns.filterMap (fun q =>
      if rsearch q.1 p.2 then
        some { file_path := filePath
               line_number := p.1 + 1
               column := 0
               vulnerability_type := q.2.1
               owasp_category := q.2.2.2
               severity := q.2.2.1
               description := "Potential security issue: " ++ q.2.1
               recommendation := "Review and ensure secure usage"
               code_snippet := String.mk (pyStrip p.2) }
      else none))).flatten
  let metrics : CodeMetrics :=
    { total_lines := lines.length
      code_lines := lines.countP (fun l =>
        !(pyStrip l).isEmpty && !startsWithChars ['/', '/'] (pyStrip l)) }
  (findings, metrics)

/-- A source file of the modelled file system: its path (components joined
with slashes), its raw text, and for Python files the externally parsed
tree, none when ast.parse raises a syntax error. -/
structure SourceFile where
  name : String
  content : String
  parsed : Option PyStmts := none
deriving DecidableEq, Repr

/-- The supported-extension set of scan_file. -/
def supportedSuffixes : List String := [".py", ".js", ".ts", ".jsx", ".tsx"]

/-- The body of CodeGuardian.scan_file after the existence check:
unsupported suffixes yield an empty result, a py suffix takes the Python
path, the rest the JavaScript path. The result caches of the class are a
memoization convenience with no behavior and are not modelled. -/
def scanKnownFile (f : SourceFile) : List SecurityFinding × CodeMetrics :=
  if supportedSuffixes.contains (pathSuffix f.name) then
    if pathSuffix f.name == ".py" then analyzePython f.name f.parsed f.content
    else analyzeJavascript f.name f.content
  else ([], {})

/-- File lookup by exact path. -/
def fsLookup (fs : List SourceFile) (path : String) : Option SourceFile :=
  fs.find? (fun f => f.name == path)

/-- CodeGuardian.scan_file: a missing path raises FileNotFoundError,
modelled as the error branch carrying the exception message; otherwise the
suffix dispatch runs. -/
def scanFile (fs : List SourceFile) (path : String) :
    Except String (List SecurityFinding × CodeMetrics) :=
  match fsLookup fs path with
  | none => .error ("File not found: " ++ path)
  | some f => .ok (scanKnownFile f)

/-- A directory tree: the files under the root in directory order, each
name a relative path. -/
structure Directory where
  files : List SourceFile
deriving DecidableEq, Repr

/-- The five fnmatch patterns of scan_directory, each represented by the
suffix its star-dot pattern accepts. -/
def supportedExtPatterns : List String := [".py", ".js", ".ts", ".jsx", ".tsx"]

/-- Whether directory.glob of the pattern scan_directory builds yields a
relative path. In recursive mode the built pattern is double-star, slash,
star, slash, star-dot-ext; pathlib resolves the double-star to zero or more
directory levels and the middle star to exactly one component, so a match
needs at least two path components. In the flat mode the pattern is
star-dot-ext alone: exactly one component. In both modes the final
component must end with the extension. -/
def globMatches (recursive : Bool) (ext : String) (relPath : String) : Bool :=
  let comps := splitOnChar '/' relPath.data
  let nameOk := endsWithChars ext.data (comps.getLastD [])
  if recursive then decide (2 ≤ comps.length) && nameOk
  else (comps.length == 1) && nameOk

/-- The enumeration loop of scan_directory: for each extension pattern in
order, every matching file in directory order (every entry of the model is
a file, so the is-file guard always passes). -/
def enumerateFiles (dir : Directory) (recursive : Bool) : List SourceFile :=
  (supportedExtPatterns.map (fun ext =>
    dir.files.filter (fun f => globMatches recursive ext f.name))).flatten

/-- The severity enumeration in declaration order, as iterated when the
severity distribution is built. -/
def allLevels : List VulnerabilityLevel :=
  [.critical, .high, .medium, .low, .info]

/-- The severity distribution: one count per level over the complete
finding list. -/
def severityDist (fs : List SecurityFinding) : List (VulnerabilityLevel × Nat) :=
  allLevels.map (fun l => (l, fs.countP (fun f => f.severity == l)))

/-- The OWASP distribution: categories in order of first appearance, each
with the number of findings carrying it. -/
def owaspDist (fs : List SecurityFinding) : List (OWASPCategory × Nat) :=
  let cats := fs.foldl (fun acc f =>
    if acc.contains f.owasp_category then acc else acc ++ [f.owasp_category]) []
  cats.map (fun c => (c, fs.countP (fun f => f.owasp_category == c)))

/-- The scan_directory result. The timestamp and the directory path string
are environmental and not modelled. -/
structure ScanResult where
  files_scanned : Nat
  total_findings : Nat
  severity_distribution : List (VulnerabilityLevel × Nat)
  owasp_distribution : List (OWASPCategory × Nat)
  findings : List SecurityFinding
  aggregated : CodeMetrics
  health_score : ℚ
  power_consumed : ℚ
deriving DecidableEq, Repr

/-- Python set.update on the dependency sets: insert the members of the
second set that are missing from the first. -/
def setUpdate (s t : List String) : List String :=
  t.foldl (fun acc d => if acc.contains d then acc else acc ++ [d]) s

/-- The per-file loop body of scan_directory: count the file, extend the
finding list, and add the total, code and comment line counts and union the
dependency sets into the running aggregate. The source adds no other
metric field to the aggregate. Per-file failures cannot arise in the model:
enumerated files exist and parse failures are absorbed inside the Python
path. -/
def aggStep (acc : Nat × List SecurityFinding × CodeMetrics) (f : SourceFile) :
    Nat × List SecurityFinding × CodeMetrics :=
  let r := scanKnownFile f
  (acc.1 + 1, acc.2.1 ++ r.1,
   { acc.2.2 with
     total_lines := acc.2.2.total_lines + r.2.total_lines
     code_lines := acc.2.2.code_lines + r.2.code_lines
     comment_lines := acc.2.2.comment_lines + r.2.comment_lines
     dependencies := setUpdate acc.2.2.dependencies r.2.dependencies })

/-- CodeGuardian.scan_directory: enumerate, scan and aggregate every
matching file, then compute the distributions in one pass over the complete
finding list and derive the health score from the aggregated metrics. -/
def scanDirectory (dir : Directory) (recursive : Bool) : ScanResult :=
  let scanned := (enumerateFiles dir recursive).foldl aggStep (0, [], {})
  { files_scanned := scanned.1
    total_findings := scanned.2.1.length
    severity_distribution := severityDist scanned.2.1
    owasp_distribution := owaspDist scanned.2.1
    findings := scanned.2.1
    aggregated := scanned.2.2
    health_score := scanned.2.2.calculateHealthScore
    power_consumed := (8/1000 : ℚ) * ((scanned.1 : ℚ) / 100) }

/-- The per-file metrics of the files a directory scan visits, in
enumeration order. -/
def scannedMetrics (dir : Directory) (recursive : Bool) : List CodeMetrics :=
  (enumerateFiles dir recursive).map (fun f => (scanKnownFile f).2)

/-- Modelled from the spec (section 4.3), for comparison with the computed
index: maintainability equals max of zero and 171 minus 52 times the ratio
of complexity to max of one and the code line count. -/
def specMaintainability (cc codeLines : Nat) : ℚ :=
  max 0 (171 - 52 * ((cc : ℚ) / ((max 1 codeLines : Nat) : ℚ)))

/-! Concrete example inputs used by the claim theorems. -/

/-- Scenario A source: an f-string query assigned to a variable, the
variable then passed to a query-execution call. -/
def sqlSource : String :=
  "query = f\"SELECT * FROM users WHERE id = {user_id}\"\ncursor.execute(query)"

/-- The parsed tree of the Scenario A source: the assignment of the
f-string, then the attribute call with the variable as its argument. -/
def sqlTree : PyStmts :=
  .cons (.assign (.cons (.name "query") .nil)
           (.joinedStr 1 (.cons (.lit "SELECT * FROM users WHERE id = ")
                           (.cons (.formatted (.name "user_id")) .nil))))
    (.cons (.exprStmt (.call 2 0 (.attr (.name "cursor") "execute")
              (.cons (.name "query") .nil) .nil))
      .nil)

/-- A Python source that fails to parse while containing a hardcoded secret
the textual check alone would report. -/
def unparsableSecretSource : String :=
  "API_KEY = \"sk-1234567890abcdef\"\ndef f(:"

/-- Scenario D source with the lower-case spellings the hashlib module
actually uses, on two different lines. -/
def lowercaseCryptoSource : String := "a = hashlib.md5(x)\nb = hashlib.sha1(y)"

/-- The same two weak algorithms spelled in upper case, on two lines. -/
def uppercaseCryptoSource : String := "h = MD5(x)\ny = SHA1(z)"

/-- Scenario B source: a hardcoded api key assignment. -/
def apiKeySource : String := "API_KEY = \"sk-1234567890abcdef\""

/-- The parsed tree of the Scenario B source. -/
def apiKeyTree : PyStmts :=
  .cons (.assign (.cons (.name "API_KEY") .nil) (.strLit "sk-1234567890abcdef")) .nil

/-- A directory whose only supported file sits directly in the root. -/
def rootOnlyDir : Directory :=
  ⟨[⟨"a.py", "x = 1", some (.cons (.assign (.cons (.name "x") .nil) .constOther) .nil)⟩]⟩

/-- A directory with one nested Python file containing a blank line and a
comment line. -/
def blankLineDir : Directory :=
  ⟨[⟨"pkg/a.py", "x = 1\n\n# c",
     some (.cons (.assign (.cons (.name "x") .nil) .constOther) .nil)⟩]⟩

/-- A file system holding one file of unsupported type. -/
def witnessFs : List SourceFile := [⟨"notes.txt", "hello", none⟩]

/-- A file system holding one unparsable Python file. -/
def witnessFs2 : List SourceFile := [⟨"bad.py", unparsableSecretSource, none⟩]

/-! Helper lemmas about the line classification, the severity distribution
and the directory aggregation fold. -/

/-- Every line is classified into exactly one of the three line classes. -/
lemma countLineTypes_sum (lines : List (List Char)) :
    (countLineTypes lines).1 + (countLineTypes lines).2.1 + (countLineTypes lines).2.2
      = lines.length := by
  induction lines with
  | nil => simp [countLineTypes]
  | cons l ls ih =>
    simp only [countLineTypes, List.length_cons]
    split_ifs <;> simp <;> omega

/-- The five per-level counts of the severity distribution partition the
finding list: their sum is the number of findings. -/
lemma sum_severityDist (fs : List SecurityFinding) :
    ((severityDist fs).map Prod.snd).sum = fs.length := by
  induction fs with
  | nil => simp [severityDist, allLevels]
  | cons f t ih =>
    simp only [severityDist, allLevels, List.map_cons, List.map_nil, List.countP_cons,
      List.sum_cons, List.sum_nil, List.length_cons] at ih ⊢
    cases hs : f.severity <;> simp +decide [hs] <;> omega

/-- Membership in a Python set union. -/
lemma mem_setUpdate (d : String) (t : List String) :
    ∀ s : List String, d ∈ setUpdate s t ↔ d ∈ s ∨ d ∈ t := by
  induction t with
  | nil => intro s; simp [setUpdate]
  | cons x xs ih =>
    intro s
    simp only [setUpdate, List.foldl_cons]
    have step : (List.foldl (fun acc d => if acc.contains d then acc else acc ++ [d])
        (if s.contains x then s else s ++ [x]) xs)
        = setUpdate (if s.contains x then s else s ++ [x]) xs := rfl
    rw [step, ih]
    by_cases hx : s.contains x
    · rw [if_pos hx]
      have : x ∈ s := by simpa using hx
      constructor
      · rintro (h | h)
        · exact Or.inl h
        · exact Or.inr (List.mem_cons_of_mem _ h)
      · rintro (h | h)
        · exact Or.inl h
        · rcases List.mem_cons.mp h with h | h
          · exact Or.inl (h ▸ this)
          · exact Or.inr h
    · rw [if_neg hx]
      simp [List.mem_append, List.mem_cons, or_assoc, or_comm, or_left_comm]

/-- The aggregation fold sums the total line counts. -/
lemma foldl_aggStep_total (files : List SourceFile) :
    ∀ acc : Nat × List SecurityFinding × CodeMetrics,
      ((files.foldl aggStep acc).2.2).total_lines
        = acc.2.2.total_lines + (files.map (fun f => (scanKnownFile f).2.total_lines)).sum := by
  induction files with
  | nil => intro acc; simp
  | cons f t ih =>
    intro acc
    simp only [List.foldl_cons, List.map_cons, List.sum_cons, ih, aggStep]
    omega

/-- The aggregation fold sums the code line counts. -/
lemma foldl_aggStep_code (files : List SourceFile) :
    ∀ acc : Nat × List SecurityFinding × CodeMetrics,
      ((files.foldl aggStep acc).2.2).code_lines
        = acc.2.2.code_lines + (files.map (fun f => (scanKnownFile f).2.code_lines)).sum := by
  induction files with
  | nil => intro acc; simp
  | cons f t ih =>
    intro acc
    simp only [List.foldl_cons, List.map_cons, List.sum_cons, ih, aggStep]
    omega

/-- The aggregation fold sums the comment line counts. -/
lemma foldl_aggStep_comment (files : List SourceFile) :
    ∀ acc : Nat × List SecurityFinding × CodeMetrics,
      ((files.foldl aggStep acc).2.2).comment_lines
        = acc.2.2.comment_lines + (files.map (fun f => (scanKnownFile f).2.comment_lines)).sum := by
  induction files with
  | nil => intro acc; simp
  | cons f t ih =>
    intro acc
    simp only [List.foldl_cons, List.map_cons, List.sum_cons, ih, aggStep]
    omega

/-- The aggregation fold never touches the blank line count. -/
lemma foldl_aggStep_blank (files : List SourceFile) :
    ∀ acc : Nat × List SecurityFinding × CodeMetrics,
      ((files.foldl aggStep acc).2.2).blank_lines = acc.2.2.blank_lines := by
  induction files with
  | nil => intro acc; rfl
  | cons f t ih => intro acc; simp only [List.foldl_cons, ih, aggStep]

/-- The aggregation fold never touches the cyclomatic complexity. -/
lemma foldl_aggStep_cc (files : List SourceFile) :
    ∀ acc : Nat × List SecurityFinding × CodeMetrics,
      ((files.foldl aggStep acc).2.2).cyclomatic_complexity
        = acc.2.2.cyclomatic_complexity := by
  induction files with
  | nil => intro acc; rfl
  | cons f t ih => intro acc; simp only [List.foldl_cons, ih, aggStep]

/-- The aggregation fold unions the dependency sets. -/
lemma foldl_aggStep_deps (files : List SourceFile) :
    ∀ (acc : Nat × List SecurityFinding × CodeMetrics) (d : String),
      d ∈ ((files.foldl aggStep acc).2.2).dependencies
        ↔ d ∈ acc.2.2.dependencies
          ∨ ∃ m ∈ files.map (fun f => (scanKnownFile f).2), d ∈ m.dependencies := by
  induction files with
  | nil => intro acc d; simp
  | cons f t ih =>
    intro acc d
    simp only [List.foldl_cons, ih, aggStep, mem_setUpdate, List.map_cons, List.mem_cons]
    constructor
    · rintro ((h | h) | ⟨m, hm, hd⟩)
      · exact Or.inl h
      · exact Or.inr ⟨_, Or.inl rfl, h⟩
      · exact Or.inr ⟨m, Or.inr hm, hd⟩
    · rintro (h | ⟨m, (hm | hm), hd⟩)
      · exact Or.inl (Or.inl h)
      · exact Or.inl (Or.inr (hm ▸ hd))
      · exact Or.inr ⟨m, hm, hd⟩

/-! Claim theorems. -/

/-- C1: code-bug evidence. For the Scenario A file, where the f-string is
assigned to the variable query and the variable is the argument of the
recognized query-execution call, the scan emits exactly one finding, and it
is the LOW-severity Format String Injection finding from the f-string slot,
not the claimed single CRITICAL SQL Injection finding: the SQL check looks
only at the syntactic shape of the call argument, and a bare variable
matches neither the percent-formatting nor the f-string shape. -/
theorem c1_sql_injection_not_reported :
    (analyzePython "vulnerable.py" (some sqlTree) sqlSource).1.map
      (fun f => (f.vulnerability_type, f.severity, f.cwe_id))
    = [("Format String Injection", VulnerabilityLevel.low, some "CWE-134")] := by decide

/-- C2: counterexample. A Python file that fails to parse returns the empty
finding list and default metrics even though the hardcoded-secret textual
check alone would report one finding in its raw text, so the claimed
Textual-Analyzer-only fallback does not happen. -/
theorem c2_parse_failure_counterexample :
    analyzePython "bad.py" none unparsableSecretSource = ([], {})
    ∧ (checkHardcodedSecrets unparsableSecretSource "bad.py").length = 1 := by decide

/-- C2 (amended): scanning an existing Python file whose source fails to
parse returns the empty finding list and default metrics; the textual
checks are skipped because they run inside the same try block after the
parse. -/
theorem c2_parse_failure_returns_empty (fs : List SourceFile) (path : String)
    (f : SourceFile) (h : fsLookup fs path = some f) (hpy : pathSuffix path = ".py")
    (hparse : f.parsed = none) :
    scanFile fs path = .ok ([], {}) := by
  have hname : f.name = path := by
    have hp := List.find?_some h
    simpa using hp
  simp +decide [scanFile, h, scanKnownFile, hname, hpy, analyzePython, hparse]

/-- C2 witness: the amended behavior at a concrete unparsable file. -/
theorem c2_parse_failure_returns_empty_witness :
    scanFile witnessFs2 "bad.py" = .ok ([], {}) :=
  c2_parse_failure_returns_empty witnessFs2 "bad.py"
    ⟨"bad.py", unparsableSecretSource, none⟩ (by decide) (by decide) rfl

/-- C3: code-bug evidence. The weak-crypto check matches algorithm names
case-sensitively in upper case, so a file calling hashlib.md5 and
hashlib.sha1 on two lines yields no weak-crypto finding at all; the claimed
behavior of two MEDIUM findings, one per line, appears only for upper-case
spellings of the algorithm names. -/
theorem c3_weak_crypto_lowercase_missed :
    checkWeakCrypto lowercaseCryptoSource "crypto.py" = []
    ∧ (checkWeakCrypto uppercaseCryptoSource "crypto.py").map
        (fun f => (f.line_number, f.severity))
      = [(1, VulnerabilityLevel.medium), (2, VulnerabilityLevel.medium)] := by decide

/-- C4: counterexample. For a file with zero code lines the computed
maintainability index is zero while the claimed formula yields 171, so the
claimed equality fails at code lines equal to zero. -/
theorem c4_zero_code_lines_counterexample :
    ¬ ((calcPythonMetrics .nil "").maintainability_index
        = specMaintainability (calcPythonMetrics .nil "").cyclomatic_complexity
            (calcPythonMetrics .nil "").code_lines) := by
  intro hEq
  have h1 : (calcPythonMetrics .nil "").maintainability_index = 0 := rfl
  have h2 : specMaintainability (calcPythonMetrics .nil "").cyclomatic_complexity
      (calcPythonMetrics .nil "").code_lines = 171 := by
    show specMaintainability 0 0 = 171
    unfold specMaintainability
    norm_num
  rw [h1, h2] at hEq
  norm_num at hEq

/-- C4 (amended): whenever a file has at least one code line, the computed
maintainability index equals the spec formula, the maximum of zero and 171
minus 52 times complexity over the maximum of one and the code line count;
when the file has no code line the index keeps its default of zero instead
of the formula value. -/
theorem c4_maintainability_formula (tree : PyStmts) (source : String)
    (h : 0 < (calcPythonMetrics tree source).code_lines) :
    (calcPythonMetrics tree source).maintainability_index
      = specMaintainability (calcPythonMetrics tree source).cyclomatic_complexity
          (calcPythonMetrics tree source).code_lines := by
  have h' : (countLineTypes (splitLinesChars source.data)).1 > 0 := h
  show (if (countLineTypes (splitLinesChars source.data)).1 > 0 then
      max 0 (171 - (26/5 : ℚ) * ((ccStmts tree : ℚ)
        / ((max 1 (countLineTypes (splitLinesChars source.data)).1 : Nat) : ℚ)) * 10)
    else 0)
    = specMaintainability (ccStmts tree) (countLineTypes (splitLinesChars source.data)).1
  rw [if_pos h', specMaintainability]
  congr 1
  ring

/-- C4 witness: the amended formula at a concrete one-line file. -/
theorem c4_maintainability_formula_witness :
    (calcPythonMetrics .nil "x").maintainability_index
      = specMaintainability (calcPythonMetrics .nil "x").cyclomatic_complexity
          (calcPythonMetrics .nil "x").code_lines :=
  c4_maintainability_formula .nil "x" (by decide)

/-- C5: code-bug evidence. A recursive directory scan of a directory whose
only Python file sits directly in the root scans nothing, because the glob
pattern the source builds requires at least one intermediate directory
component; the flat scan of the same directory does find the file. -/
theorem c5_root_files_skipped :
    (scanDirectory rootOnlyDir true).files_scanned = 0
    ∧ (scanDirectory rootOnlyDir false).files_scanned = 1 := by decide

/-- C6: counterexample. In a directory whose one scanned file has one blank
line, the aggregated blank-line count stays zero while the sum over the
scanned files is one, so not every count field is summed by aggregation. -/
theorem c6_blank_not_aggregated :
    (scanDirectory blankLineDir true).aggregated.blank_lines = 0
    ∧ ((scannedMetrics blankLineDir true).map CodeMetrics.blank_lines).sum = 1 := by decide

/-- C6 (amended): directory aggregation sums exactly the total, code and
comment line counts and unions the dependency sets of the scanned files;
the blank-line and cyclomatic-complexity fields are never aggregated and
stay zero, and the health score is recomputed from the aggregated metrics
rather than averaged over per-file scores. -/
theorem c6_aggregation (dir : Directory) (recursive : Bool) :
    (scanDirectory dir recursive).aggregated.total_lines
        = ((scannedMetrics dir recursive).map CodeMetrics.total_lines).sum
    ∧ (scanDirectory dir recursive).aggregated.code_lines
        = ((scannedMetrics dir recursive).map CodeMetrics.code_lines).sum
    ∧ (scanDirectory dir recursive).aggregated.comment_lines
        = ((scannedMetrics dir recursive).map CodeMetrics.comment_lines).sum
    ∧ (∀ d : String, d ∈ (scanDirectory dir recursive).aggregated.dependencies
        ↔ ∃ m ∈ scannedMetrics dir recursive, d ∈ m.dependencies)
    ∧ (scanDirectory dir recursive).aggregated.blank_lines = 0
    ∧ (scanDirectory dir recursive).aggregated.cyclomatic_complexity = 0
    ∧ (scanDirectory dir recursive).health_score
        = (scanDirectory dir recursive).aggregated.calculateHealthScore := by
  have hagg : (scanDirectory dir recursive).aggregated
      = ((enumerateFiles dir recursive).foldl aggStep (0, [], {})).2.2 := rfl
  refine ⟨?_, ?_, ?_, ?_, ?_, ?_, rfl⟩
  · rw [hagg, foldl_aggStep_total]
    simp [scannedMetrics, List.map_map, Function.comp_def]
  · rw [hagg, foldl_aggStep_code]
    simp [scannedMetrics, List.map_map, Function.comp_def]
  · rw [hagg, foldl_aggStep_comment]
    simp [scannedMetrics, List.map_map, Function.comp_def]
  · intro d
    rw [hagg, foldl_aggStep_deps]
    simp [scannedMetrics]
  · rw [hagg, foldl_aggStep_blank]
  · rw [hagg, foldl_aggStep_cc]

/-- C7: counterexample. For a JavaScript file of one code line and one
trailing blank line, the total line count is two while the code, comment
and blank counts are one, zero and zero: the JavaScript path never fills
the comment and blank counts, so the line invariant fails there. -/
theorem c7_js_invariant_fails :
    ¬ ((analyzeJavascript "a.js" "x\n").2.total_lines
        = (analyzeJavascript "a.js" "x\n").2.code_lines
          + (analyzeJavascript "a.js" "x\n").2.comment_lines
          + (analyzeJavascript "a.js" "x\n").2.blank_lines) := by decide

/-- C7 (amended): the line invariant holds for every Python file, parsed or
not, because each line is classified into exactly one of code, comment and
blank; for JavaScript and TypeScript files the comment and blank counts are
always zero and the code count is at most the total, so the invariant holds
there only when every line counts as code. -/
theorem c7_line_invariant :
    (∀ (filePath : String) (parsed : Option PyStmts) (source : String),
        (analyzePython filePath parsed source).2.total_lines
          = (analyzePython filePath parsed source).2.code_lines
            + (analyzePython filePath parsed source).2.comment_lines
            + (analyzePython filePath parsed source).2.blank_lines)
    ∧ (∀ filePath source : String,
        (analyzeJavascript filePath source).2.comment_lines = 0
        ∧ (analyzeJavascript filePath source).2.blank_lines = 0
        ∧ (analyzeJavascript filePath source).2.code_lines
            ≤ (analyzeJavascript filePath source).2.total_lines) := by
  constructor
  · intro filePath parsed source
    cases parsed with
    | none => rfl
    | some tree => exact (countLineTypes_sum (splitLinesChars source.data)).symm
  · intro filePath source
    exact ⟨rfl, rfl, List.countP_le_length _⟩

/-- C8: for every directory scan, the five severity-distribution counts sum
to the total finding count, which is the length of the finding list. -/
theorem c8_distribution_totals (dir : Directory) (recursive : Bool) :
    ((scanDirectory dir recursive).severity_distribution.map Prod.snd).sum
      = (scanDirectory dir recursive).total_findings
    ∧ (scanDirectory dir recursive).total_findings
      = (scanDirectory dir recursive).findings.length :=
  ⟨sum_severityDist _, rfl⟩

/-- C9: counterexample. For the Scenario B file the single finding's
snippet is the whole stripped line followed by an ellipsis and still
contains the full literal secret value: the fifty-character truncation only
removes secrets that extend beyond that length. -/
theorem c9_snippet_contains_secret :
    ((analyzePython "secrets.py" (some apiKeyTree) apiKeySource).1.map
      (fun f => f.code_snippet))
      = ["API_KEY = \"sk-1234567890abcdef\"..."]
    ∧ strContains "sk-1234567890abcdef" "API_KEY = \"sk-1234567890abcdef\"..." = true := by
  decide

/-- C9 (amended): the Scenario B file yields exactly one finding, a
Hardcoded Secret of HIGH severity with CWE-798, whose snippet is the
stripped line truncated to its first fifty characters plus an ellipsis; for
this thirty-one character line the snippet therefore still contains the
full literal secret value. -/
theorem c9_secret_finding :
    (analyzePython "secrets.py" (some apiKeyTree) apiKeySource).1.map
      (fun f => (f.vulnerability_type, f.severity, f.cwe_id, f.code_snippet))
    = [("Hardcoded Secret", VulnerabilityLevel.high, some "CWE-798",
        "API_KEY = \"sk-1234567890abcdef\"...")] := by decide

/-- C10: scanning a missing path raises FileNotFoundError, modelled by the
error result carrying the exception message, while scanning an existing
file whose extension is unsupported returns the empty finding list and the
default metrics without raising. -/
theorem c10_missing_vs_unsupported :
    (∀ (fs : List SourceFile) (path : String),
        fsLookup fs path = none →
        scanFile fs path = .error ("File not found: " ++ path))
    ∧ (∀ (fs : List SourceFile) (path : String) (f : SourceFile),
        fsLookup fs path = some f →
        supportedSuffixes.contains (pathSuffix path) = false →
        scanFile fs path = .ok ([], {})) := by
  constructor
  · intro fs path h
    simp [scanFile, h]
  · intro fs path f h hsuf
    have hname : f.name = path := by
      have hp := List.find?_some h
      simpa using hp
    have hmem : pathSuffix path ∉ supportedSuffixes := by simpa using hsuf
    simp [scanFile, h, scanKnownFile, hname, hmem]

/-- C10 witness: both branches at concrete inputs. -/
theorem c10_missing_vs_unsupported_witness :
    scanFile witnessFs "missing.py" = .error ("File not found: " ++ "missing.py")
    ∧ scanFile witnessFs "notes.txt" = .ok ([], {}) :=
  ⟨c10_missing_vs_unsupported.1 witnessFs "missing.py" (by decide),
   c10_missing_vs_unsupported.2 witnessFs "notes.txt" ⟨"notes.txt", "hello", none⟩
     (by decide) (by decide)⟩

end CodeGuardian
